import Mathlib

/-!
Verification of the google-search-scraper core against its specification.

The development shallowly embeds the scraper implemented in
`src/api/google_scraper_api.py` (class `GoogleScraper`): text
normalization (`clean_text`), redirect unwrapping (`extract_url`), the
result extractor (`parse_search_results`), the pacing controller
(`smart_delay`), the query builder (the parameter dictionary built inside
`search`), the block classifier (the inline substring scan inside
`search`), and the search orchestrator (`search` together with
`_retry_with_different_domain`) as total Lean functions.

External library behaviour is abstracted at the boundary: BeautifulSoup
parsing is modelled by presenting a fetched page as the list of title
candidates the selector chain yields (an empty or non-HTML body yields the
empty list), and the per-candidate `try/except` of the extraction loop is
modelled by a `faulty` candidate variant whose processing is skipped.
Wall-clock times and random draws are passed in as explicit rational
parameters.
-/

namespace Scraper

/-- Python whitespace, as matched by `str.strip` and the regex class `\s`
for the characters relevant here. -/
def isPySpace (c : Char) : Bool :=
  c = ' ' || c = '\t' || c = '\n' || c = '\r' || c = '\x0b' || c = '\x0c'

/-- Characters kept by the character class
`[\w\s\.,!?;:\-()\'\"áéíóúñüÁÉÍÓÚÑÜ@]` of `clean_text`
(`google_scraper_api.py:146`).  `\w` is modelled as ASCII alphanumerics
plus underscore; the accented Latin letters of the class are listed
explicitly, as in the source. -/
def isAllowedChar (c : Char) : Bool :=
  c.isAlphanum || c = '_' || isPySpace c ||
  c = '.' || c = ',' || c = '!' || c = '?' || c = ';' || c = ':' ||
  c = '-' || c = '(' || c = ')' || c = '\'' || c = '\"' ||
  c = 'á' || c = 'é' || c = 'í' || c = 'ó' || c = 'ú' || c = 'ñ' || c = 'ü' ||
  c = 'Á' || c = 'É' || c = 'Í' || c = 'Ó' || c = 'Ú' || c = 'Ñ' || c = 'Ü' ||
  c = '@'

/-- `str.strip()`: drop leading and trailing whitespace. -/
def pyStrip (l : List Char) : List Char :=
  ((l.dropWhile isPySpace).reverse.dropWhile isPySpace).reverse

/-- `re.sub(r'\s+', ' ', ·)`: replace every maximal run of whitespace by a
single space. -/
def collapseWs : List Char → List Char
  | [] => []
  | c :: cs =>
    if isPySpace c then
      match cs with
      | [] => [' ']
      | c₂ :: _ => if isPySpace c₂ then collapseWs cs else ' ' :: collapseWs cs
    else c :: collapseWs cs

/-- `GoogleScraper.clean_text` (`google_scraper_api.py:142-147`): empty
input maps to the empty string; otherwise strip, collapse whitespace,
delete characters outside the permitted class, and truncate to 500
characters. -/
def clean_text (s : String) : String :=
  if s = "" then ""
  else String.mk ((((collapseWs (pyStrip s.data)).filter isAllowedChar)).take 500)

/-- `str.startswith(p)`. -/
def pyStartsWith (s p : String) : Bool :=
  p.data.isPrefixOf s.data

/-- The prefix of a character list that precedes the first occurrence of
the (non-empty) separator `sep`; the whole list when `sep` does not
occur.  `l.split(sep)[0]` in Python. -/
def upToSub (sep : List Char) : List Char → List Char
  | [] => []
  | c :: cs => if sep.isPrefixOf (c :: cs) then [] else c :: upToSub sep cs

/-- `GoogleScraper.extract_url` (`google_scraper_api.py:149-165`): unwrap
a `/url?q=`-wrapped redirect by taking the text after the leading
`/url?q=` up to the next occurrence of `/url?q=` (that is
`href.split('/url?q=')[1]`) and truncating it at the next `&`; pass URLs
beginning with `http` through; map `/search`-internal links to the empty
string; return anything else unchanged. -/
def extract_url (href : String) : String :=
  if href = "" then ""
  else if pyStartsWith href "/url?q=" then
    String.mk (upToSub "&".data (upToSub "/url?q=".data (href.data.drop 7)))
  else if pyStartsWith href "http" then href
  else if pyStartsWith href "/search" then ""
  else href

/-! ## Result extractor (`GoogleScraper.parse_search_results`,
`google_scraper_api.py:167-252`)

BeautifulSoup is external to the repository, so a fetched result page is
presented to the extractor as the ordered list of title candidates that
the selector fallback chain yields together with the data the
per-candidate code reads from the surrounding container.  An empty or
non-HTML body contains no title element matched by any selector, hence
yields the empty candidate list.  The `try/except` around the body of the
per-candidate loop (lines 189 and 248-250) catches any fault raised while
extracting one candidate and continues with the next; a candidate whose
processing raises is modelled by the `faulty` variant. -/

/-- One title candidate found by the selector chain, with the raw data
the extraction loop reads around it: the title element's text, the
`href` of the first hyperlink of the enclosing container (if any), the
text of the first snippet selector that matches with non-empty stripped
text (if any), and the result of the date-pattern scan over the
container's text (empty when no pattern matches; the regular-expression
scan itself is abstracted as this field's value).  `faulty` stands for a
candidate whose processing raises an exception. -/
inductive Candidate
  | good (rawTitle : String) (href : Option String)
         (rawSnippet : Option String) (dateText : String)
  | faulty
deriving DecidableEq

/-- One extracted search result, as appended at
`google_scraper_api.py:240-246`. -/
structure SearchResult where
  title : String
  url : String
  snippet : String
  date : String
  position : Nat
deriving DecidableEq, Repr

/-- The field values computed for one candidate before the accept test. -/
structure RawFields where
  title : String
  url : String
  snippet : String
  date : String
deriving DecidableEq

/-- The body of the per-candidate loop (`google_scraper_api.py:189-246`):
clean the title and skip the candidate if it is empty; unwrap the
container's first link (empty string when the container has no link);
clean the snippet text (empty string when no snippet selector matched);
accept only when title and url are non-empty and the url starts with
`http`.  A `faulty` candidate is skipped by the surrounding
`try/except`. -/
def processCandidate : Candidate → Option RawFields
  | .faulty => none
  | .good rawTitle href rawSnippet dateText =>
    let title := clean_text rawTitle
    if title = "" then none
    else
      let url := match href with
        | some h => extract_url h
        | none => ""
      let snippet := match rawSnippet with
        | some t => clean_text t
        | none => ""
      if title ≠ "" ∧ url ≠ "" ∧ pyStartsWith url "http" then
        some ⟨title, url, snippet, dateText⟩
      else none

/-- The accumulation of accepted results: each accepted candidate is
appended with `position := len(results) + 1`
(`google_scraper_api.py:240-246`). -/
def parseLoop : List Candidate → List SearchResult → List SearchResult
  | [], acc => acc
  | c :: cs, acc =>
    match processCandidate c with
    | none => parseLoop cs acc
    | some f => parseLoop cs (acc ++ [⟨f.title, f.url, f.snippet, f.date, acc.length + 1⟩])

/-- `GoogleScraper.parse_search_results`: iterate over the first 20 title
candidates (`found_results[:20]`, line 188), accumulating accepted
results. -/
def parse_search_results (candidates : List Candidate) : List SearchResult :=
  parseLoop (candidates.take 20) []

/-- `positionsFrom n l` holds when the `position` fields of `l` are
exactly `n, n+1, n+2, ...` in order. -/
def positionsFrom (n : Nat) : List SearchResult → Bool
  | [] => true
  | r :: rs => r.position = n && positionsFrom (n + 1) rs

/-! ## Pacing controller (`GoogleScraper.smart_delay`,
`google_scraper_api.py:112-140`)

Wall-clock readings and the uniform random draw are passed in as explicit
rational parameters.  `smart_delay` both computes the delay and mutates
the scraper's pacing fields; the computation and the state update are
modelled separately. -/

/-- The pacing fields of `GoogleScraper` (`google_scraper_api.py:78-80`),
in seconds since the epoch. -/
structure PacingState where
  last_request_time : ℚ
  request_count : ℕ
  rate_limit_reset : ℚ
deriving DecidableEq

/-- The hourly counter reset (`google_scraper_api.py:118-120`): when more
than 3600 seconds have passed since `rate_limit_reset`, zero the counter
and restart the window. -/
def resetIfStale (st : PacingState) (now : ℚ) : PacingState :=
  if now - st.rate_limit_reset > 3600 then
    { st with request_count := 0, rate_limit_reset := now }
  else st

/-- The total delay computed by `smart_delay`
(`google_scraper_api.py:122-132`): base 2.0 s, plus 2.0 s when the
(possibly just reset) counter exceeds 20, else plus 1.0 s when it exceeds
10, plus the uniform draw from `[0.5, 2.5]`. -/
def smart_delay_total (st : PacingState) (now jitter : ℚ) : ℚ :=
  let st₁ := resetIfStale st now
  let base : ℚ :=
    if st₁.request_count > 20 then 2 + 2
    else if st₁.request_count > 10 then 2 + 1
    else 2
  base + jitter

/-- The state update performed by `smart_delay`
(`google_scraper_api.py:118-120` and `139-140`): possibly reset the
window, then stamp the request time and increment the counter.  The
source stamps `time.time()` after the sleep; the post-sleep reading is
modelled by the same `now`. -/
def recordRequest (st : PacingState) (now : ℚ) : PacingState :=
  let st₁ := resetIfStale st now
  { st₁ with request_count := st₁.request_count + 1, last_request_time := now }

/-! ## Block classifier (`google_scraper_api.py:301`) -/

/-- `str.lower()`, character by character. -/
def pyLower (s : String) : String :=
  String.mk (s.data.map Char.toLower)

/-- `needle` occurs as a contiguous sublist of `hay`. -/
def listInfix (needle : List Char) : List Char → Bool
  | [] => needle.isEmpty
  | c :: cs => needle.isPrefixOf (c :: cs) || listInfix needle cs

/-- Python's `needle in hay` substring test. -/
def pyIn (needle hay : String) : Bool :=
  listInfix needle.data hay.data

/-- The inline block check of `search` (`google_scraper_api.py:301`):
`'detected unusual traffic' in html.lower() or 'captcha' in
html.lower()`. -/
def isBlocked (html : String) : Bool :=
  pyIn "detected unusual traffic" (pyLower html) || pyIn "captcha" (pyLower html)

/-! ## Query builder (`google_scraper_api.py:262-287`) -/

/-- The search parameter dictionary built inside `search`.  The
percent-encoding and joining of the dictionary into a URL string
(line 288) carries every field verbatim and is not modelled; `tbs` is
`none` when the key is absent from the dictionary. -/
structure SearchParams where
  q : String
  num : Nat
  hl : String
  lr : String
  safe : String
  start : Nat
  tbs : Option String
deriving DecidableEq

/-- The `date_params` mapping (`google_scraper_api.py:279-284`). -/
def date_params (v : String) : Option String :=
  if v = "day" then some "d"
  else if v = "week" then some "w"
  else if v = "month" then some "m"
  else if v = "year" then some "y"
  else none

/-- Parameter construction in `search` (`google_scraper_api.py:262-287`):
request `min(num_results + 5, 50)` results, append ` site:<domain>` and
` filetype:<ext>` to the query term when those keyword arguments are
present and truthy (a `none` filter models an absent or `None` argument,
`some ""` a present but falsy one), and set `tbs` to `qdr:<token>` only
when the date range is one of the four recognised values. -/
def build_params (query : String) (num_results : Nat) (language : String)
    (safe_search : Bool) (site filetype date_range : Option String) : SearchParams :=
  let q₁ := match site with
    | some s => if s ≠ "" then query ++ " site:" ++ s else query
    | none => query
  let q₂ := match filetype with
    | some f => if f ≠ "" then q₁ ++ " filetype:" ++ f else q₁
    | none => q₁
  let tbs := match date_range with
    | some d =>
      if d ≠ "" then
        match date_params d with
        | some tok => some ("qdr:" ++ tok)
        | none => none
      else none
    | none => none
  { q := q₂, num := min (num_results + 5) 50, hl := language,
    lr := "lang_" ++ language,
    safe := if safe_search then "active" else "off",
    start := 0, tbs := tbs }

/-! ## Search orchestrator (`GoogleScraper.search` and
`GoogleScraper._retry_with_different_domain`,
`google_scraper_api.py:254-339`)

One fetch attempt is the part of `search` from the `session.get` to
either a returned response dictionary or the recursive retry call.  The
transport is abstracted as an oracle giving the outcome of attempt `i`;
the mirror rotation (`random.choice(GOOGLE_DOMAINS)`, re-drawn on every
attempt) as `domains i`; the wall clock read by the pacing step of
attempt `i` as `times i`.  The extra `random.uniform(3, 7)` sleep of
`_retry_with_different_domain` (line 338) suspends without touching any
modelled state.

The source bounds the recursion of `search` through
`_retry_with_different_domain` by nothing, so the orchestrator is run
with explicit fuel: `none` means the recursion is still running after
`fuel` attempts.  On termination the result carries the index after the
final attempt (the total number of attempts when started at 0) and the
final pacing state. -/

/-- The outcome of one fetch attempt: an HTTP response with its status
and page, or an exception raised by the transport (timeout, connection
failure, DNS failure) and caught at `google_scraper_api.py:326`. -/
inductive FetchOutcome
  | resp (status : Nat) (body : String) (candidates : List Candidate)
  | exn (msg : String)

/-- The response dictionary returned by `search`.  The failure
dictionaries (`google_scraper_api.py:319-324` and `328-333`) carry no
`results_count`, `results` or `source` keys; the absent keys are
modelled as `0`, `[]` and `""`.  The `timestamp` and `total_found` keys
are not modelled (no claim refers to them). -/
structure SearchResponse where
  success : Bool
  query : String
  results_count : Nat
  results : List SearchResult
  source : String
  error : Option String
deriving DecidableEq

/-- The failure dictionary of `search`. -/
def failureResponse (query msg : String) : SearchResponse :=
  { success := false, query := query, results_count := 0, results := [],
    source := "", error := some msg }

/-- The success dictionary of `search` (`google_scraper_api.py:308-316`):
`results_count` is the number of extracted results before truncation,
`results` the first `num_results` of them. -/
def successResponse (query : String) (num_results : Nat) (domain : String)
    (results : List SearchResult) : SearchResponse :=
  { success := true, query := query, results_count := results.length,
    results := results.take num_results, source := domain, error := none }

/-- What one attempt decides. -/
inductive StepResult
  | done (r : SearchResponse)
  | retryBlocked

/-- One fetch-and-classify attempt (`google_scraper_api.py:293-333`): a
caught exception or a non-200 status returns a failure dictionary; a 200
response whose body carries a block signal triggers the retry path; a
clean 200 response is parsed and returned as a success dictionary. -/
def searchStep (query : String) (num_results : Nat) (domain : String) :
    FetchOutcome → StepResult
  | .exn msg => .done (failureResponse query msg)
  | .resp status body candidates =>
    if status = 200 then
      if isBlocked body then .retryBlocked
      else .done (successResponse query num_results domain (parse_search_results candidates))
    else .done (failureResponse query ("HTTP " ++ toString status))

/-- The orchestrator run to depth `fuel` from attempt index `i` and
pacing state `st`: every attempt first runs the pacing step
(`await self.smart_delay()`, line 257), then fetches and classifies; a
blocked attempt re-enters `search` via `_retry_with_different_domain`
(lines 304 and 335-339). -/
def searchLoop (query : String) (num_results : Nat)
    (oracle : Nat → FetchOutcome) (domains : Nat → String) (times : Nat → ℚ) :
    Nat → Nat → PacingState → Option (SearchResponse × Nat × PacingState)
  | 0, _, _ => none
  | fuel + 1, i, st =>
    let st₁ := recordRequest st (times i)
    match searchStep query num_results (domains i) (oracle i) with
    | .done r => some (r, i + 1, st₁)
    | .retryBlocked => searchLoop query num_results oracle domains times fuel (i + 1) st₁

/-- An oracle that serves a blocked page on the first `k` attempts and a
clean page from attempt `k` on. -/
def blockedThenClean (blockedBody cleanBody : String)
    (cleanCandidates : List Candidate) (k : Nat) : Nat → FetchOutcome :=
  fun i => if i < k then .resp 200 blockedBody [] else .resp 200 cleanBody cleanCandidates

/-! ## Helper lemmas -/

theorem pyStartsWith_http (s : String) (h : pyStartsWith s "http" = true) :
    s ≠ "" ∧ pyStartsWith s "/url?q=" = false ∧ pyStartsWith s "/search" = false ∧
    pyStartsWith s "/" = false := by
  unfold pyStartsWith at *
  cases hs : s.data with
  | nil => rw [hs] at h; simp [List.isPrefixOf] at h
  | cons c cs =>
    rw [hs] at h
    have hc : c = 'h' := by
      simp [List.isPrefixOf, Bool.and_eq_true] at h
      exact h.1.symm
    subst hc
    refine ⟨?_, ?_, ?_, ?_⟩
    · intro he
      rw [he] at hs
      simp at hs
    · simp [List.isPrefixOf]
    · simp [List.isPrefixOf]
    · simp [List.isPrefixOf]

theorem extract_url_http (s : String) (h : pyStartsWith s "http" = true) :
    extract_url s = s := by
  obtain ⟨hne, hurl, _, _⟩ := pyStartsWith_http s h
  simp [extract_url, hne, hurl, h]

theorem positionsFrom_iff_get (l : List SearchResult) :
    ∀ n, positionsFrom n l = true ↔
      ∀ i (h : i < l.length), (l.get ⟨i, h⟩).position = n + i := by
  induction l with
  | nil => intro n; simp [positionsFrom]
  | cons r rs ih =>
    intro n
    simp only [positionsFrom, Bool.and_eq_true, decide_eq_true_eq]
    constructor
    · rintro ⟨h1, h2⟩ i hi
      cases i with
      | zero => simpa using h1
      | succ j =>
        have hj : j < rs.length := by simpa using hi
        have := (ih (n + 1)).mp h2 j hj
        simp only [List.get] at this ⊢
        omega
    · intro h
      refine ⟨by simpa using h 0 (by simp), (ih (n + 1)).mpr ?_⟩
      intro j hj
      have := h (j + 1) (by simpa using Nat.succ_lt_succ hj)
      simp only [List.get] at this ⊢
      omega

theorem positionsFrom_append (l : List SearchResult) (r : SearchResult) :
    ∀ n, positionsFrom n (l ++ [r]) =
      (positionsFrom n l && decide (r.position = n + l.length)) := by
  induction l with
  | nil => intro n; simp [positionsFrom]
  | cons x xs ih =>
    intro n
    have harith : n + (xs.length + 1) = n + 1 + xs.length := by omega
    simp only [List.cons_append, positionsFrom, List.append_eq, ih (n + 1),
      List.length_cons, harith, Bool.and_assoc]

theorem positionsFrom_take (l : List SearchResult) :
    ∀ n k, positionsFrom n l = true → positionsFrom n (l.take k) = true := by
  induction l with
  | nil => intro n k _; simp [positionsFrom]
  | cons r rs ih =>
    intro n k h
    cases k with
    | zero => simp [positionsFrom]
    | succ k =>
      simp only [positionsFrom, Bool.and_eq_true] at h
      simp only [List.take_succ_cons, positionsFrom, Bool.and_eq_true]
      exact ⟨h.1, ih (n + 1) k h.2⟩

theorem parseLoop_positions (cs : List Candidate) :
    ∀ acc, positionsFrom 1 acc = true → positionsFrom 1 (parseLoop cs acc) = true := by
  induction cs with
  | nil => intro acc h; simpa [parseLoop] using h
  | cons c cs ih =>
    intro acc hacc
    unfold parseLoop
    cases hc : processCandidate c with
    | none => exact ih acc hacc
    | some f =>
      apply ih
      rw [positionsFrom_append]
      simp [hacc, Nat.add_comm]

theorem parse_search_results_positions (cs : List Candidate) :
    positionsFrom 1 (parse_search_results cs) = true :=
  parseLoop_positions (cs.take 20) [] rfl

theorem processCandidate_fields (c : Candidate) (f : RawFields)
    (h : processCandidate c = some f) :
    f.title ≠ "" ∧ f.url ≠ "" ∧ pyStartsWith f.url "http" = true := by
  cases c with
  | faulty => simp [processCandidate] at h
  | good t href sn d =>
    simp only [processCandidate] at h
    split at h
    · exact absurd h (by simp)
    · split at h
      next hcond =>
        cases h
        exact hcond
      next => exact absurd h (by simp)

theorem parseLoop_good (cs : List Candidate) :
    ∀ acc, (∀ r ∈ acc, r.title ≠ "" ∧ r.url ≠ "" ∧ pyStartsWith r.url "http" = true) →
      ∀ r ∈ parseLoop cs acc,
        r.title ≠ "" ∧ r.url ≠ "" ∧ pyStartsWith r.url "http" = true := by
  induction cs with
  | nil => intro acc h; simpa [parseLoop] using h
  | cons c cs ih =>
    intro acc hacc
    unfold parseLoop
    cases hc : processCandidate c with
    | none => exact ih acc hacc
    | some f =>
      apply ih
      intro r hr
      rcases List.mem_append.mp hr with h1 | h2
      · exact hacc r h1
      · have hf := processCandidate_fields c f hc
        simp only [List.mem_singleton] at h2
        subst h2
        exact hf

theorem parseLoop_skip_faulty (pre post : List Candidate) :
    ∀ acc, parseLoop (pre ++ Candidate.faulty :: post) acc = parseLoop (pre ++ post) acc := by
  induction pre with
  | nil => intro acc; simp [parseLoop, processCandidate]
  | cons c cs ih =>
    intro acc
    simp only [List.cons_append, parseLoop]
    cases hc : processCandidate c <;> simp [hc, ih]

/-! ## Claims -/

/-- C3: the result extractor is total on every input — an empty or
non-HTML body (no selector matches, hence no candidates) yields the
empty sequence; a fault while extracting one candidate skips exactly
that candidate and never aborts the extraction of the remaining ones;
and a page with three well-formed result blocks and one malformed block
yields exactly three records with positions 1-3 in source order. -/
theorem C3_extractor_robustness :
    parse_search_results [] = [] ∧
    (∀ (pre post : List Candidate) (acc : List SearchResult),
      parseLoop (pre ++ Candidate.faulty :: post) acc = parseLoop (pre ++ post) acc) ∧
    parse_search_results
        [.good "Result One" (some "https://a.example/1") (some "First snippet") "",
         .good "Result Two" (some "/url?q=https://b.example/2&sa=X") none "",
         .faulty,
         .good "Result Three" (some "https://c.example/3") none ""] =
      [⟨"Result One", "https://a.example/1", "First snippet", "", 1⟩,
       ⟨"Result Two", "https://b.example/2", "", "", 2⟩,
       ⟨"Result Three", "https://c.example/3", "", "", 3⟩] :=
  ⟨rfl, fun pre post acc => parseLoop_skip_faulty pre post acc, by decide⟩

/-- C4 counterexample: the extractor's accept test is
`url.startswith('http')`, not an `http://`-or-`https://` scheme test, so
a record whose url is `"httpx.invalid"` is emitted even though that url
starts with neither `http://` nor `https://`. -/
theorem C4_counterexample :
    parse_search_results [.good "Title" (some "httpx.invalid") none ""] =
      [⟨"Title", "httpx.invalid", "", "", 1⟩] ∧
    pyStartsWith "httpx.invalid" "http://" = false ∧
    pyStartsWith "httpx.invalid" "https://" = false := by decide

/-- C4 (amended): every record emitted by the extractor has a non-empty
title, a non-empty url, and a url that starts with `http`; in
particular the url never starts with `/`, so no internal-only
root-relative navigation link is ever emitted. -/
theorem C4_accepted_records (cs : List Candidate) (r : SearchResult)
    (h : r ∈ parse_search_results cs) :
    r.title ≠ "" ∧ r.url ≠ "" ∧ pyStartsWith r.url "http" = true ∧
    pyStartsWith r.url "/" = false := by
  have hg := parseLoop_good (cs.take 20) [] (by simp) r h
  exact ⟨hg.1, hg.2.1, hg.2.2, (pyStartsWith_http r.url hg.2.2).2.2.2⟩

/-- Witness for C4: the amended theorem applied to a concrete page. -/
theorem C4_witness :
    (⟨"Title", "https://a.example/x", "", "", 1⟩ : SearchResult) ∈
      parse_search_results [.good "Title" (some "https://a.example/x") none ""] ∧
    ("Title" ≠ "" ∧ "https://a.example/x" ≠ "" ∧
      pyStartsWith "https://a.example/x" "http" = true ∧
      pyStartsWith "https://a.example/x" "/" = false) :=
  ⟨by decide,
    C4_accepted_records [.good "Title" (some "https://a.example/x") none ""]
      ⟨"Title", "https://a.example/x", "", "", 1⟩ (by decide)⟩

/-- C5: redirect unwrapping strips the `/url?q=` prefix and truncates at
the next `&`; an href already starting with `http` is returned
unchanged; an internal `/search` link maps to the empty string. -/
theorem C5_extract_url :
    extract_url "/url?q=https://example.com/page&sa=X" = "https://example.com/page" ∧
    (∀ s : String, pyStartsWith s "http" = true → extract_url s = s) ∧
    extract_url "/search?q=x" = "" :=
  ⟨by decide, fun s h => extract_url_http s h, by decide⟩

/-- Witness for C5: the pass-through case at a concrete href. -/
theorem C5_witness :
    pyStartsWith "https://direct.example" "http" = true ∧
    extract_url "https://direct.example" = "https://direct.example" :=
  ⟨by decide, C5_extract_url.2.1 "https://direct.example" (by decide)⟩

set_option maxRecDepth 100000 in
/-- C6: text normalization maps `"  Hello   World!! "` to
`"Hello World!!"`, always emits at most 500 characters, emits only
characters of the permitted class, and truncates a 1000-character input
to the 500-character cap. -/
theorem C6_clean_text :
    clean_text "  Hello   World!! " = "Hello World!!" ∧
    (∀ s : String, (clean_text s).length ≤ 500) ∧
    (∀ s : String, (clean_text s).data.all isAllowedChar = true) ∧
    clean_text (String.mk (List.replicate 1000 'a')) = String.mk (List.replicate 500 'a') := by
  refine ⟨by decide, ?_, ?_, by decide⟩
  · intro s
    unfold clean_text
    split
    · decide
    · simp only [String.length, List.length_take]
      omega
  · intro s
    unfold clean_text
    split
    · decide
    · rw [List.all_eq_true]
      intro c hc
      have hm : c ∈ (collapseWs (pyStrip s.data)).filter isAllowedChar :=
        List.take_subset 500 _ hc
      exact (List.mem_filter.mp hm).2

/-- C7: the pacing delay is base 2.0 s plus the jitter, plus 2.0 s when
the request counter exceeds 20, else plus 1.0 s when it exceeds 10, with
the counter treated as zero when more than one hour has elapsed since
the counter-reset timestamp; for a fresh state the delay lies in
`[2.5, 4.5]` for every jitter draw in `[0.5, 2.5]`, and for counter 25
inside the reset window it lies in `[4.5, 6.5]`. -/
theorem C7_pacing (st : PacingState) (now jitter : ℚ)
    (hj1 : 1/2 ≤ jitter) (hj2 : jitter ≤ 5/2) :
    (now - st.rate_limit_reset > 3600 → smart_delay_total st now jitter = 2 + jitter) ∧
    (now - st.rate_limit_reset ≤ 3600 → st.request_count > 20 →
      smart_delay_total st now jitter = 4 + jitter) ∧
    (now - st.rate_limit_reset ≤ 3600 → st.request_count ≤ 20 → st.request_count > 10 →
      smart_delay_total st now jitter = 3 + jitter) ∧
    (now - st.rate_limit_reset ≤ 3600 → st.request_count ≤ 10 →
      smart_delay_total st now jitter = 2 + jitter) ∧
    (st.request_count = 0 →
      5/2 ≤ smart_delay_total st now jitter ∧ smart_delay_total st now jitter ≤ 9/2) ∧
    (st.request_count = 25 → now - st.rate_limit_reset ≤ 3600 →
      9/2 ≤ smart_delay_total st now jitter ∧ smart_delay_total st now jitter ≤ 13/2) := by
  refine ⟨fun h => ?_, fun h h20 => ?_, fun h h20 h10 => ?_, fun h h10 => ?_,
    fun h0 => ?_, fun h25 h => ?_⟩
  · simp [smart_delay_total, resetIfStale, h]
  · simp [smart_delay_total, resetIfStale, not_lt.mpr h, h20]
    norm_num
  · simp [smart_delay_total, resetIfStale, not_lt.mpr h, not_lt.mpr h20, h10]
    norm_num
  · have h20 : ¬ st.request_count > 20 := by omega
    have h10' : ¬ st.request_count > 10 := by omega
    simp [smart_delay_total, resetIfStale, not_lt.mpr h, h20, h10']
  · simp only [smart_delay_total, resetIfStale]
    split_ifs <;> simp_all <;> constructor <;> linarith
  · simp only [smart_delay_total, resetIfStale, not_lt.mpr h, if_false]
    simp [h25]
    constructor <;> linarith

/-- Witness for C7: a fresh state with jitter 1 gets a delay in
`[2.5, 4.5]`. -/
theorem C7_witness :
    (5/2 : ℚ) ≤ smart_delay_total ⟨0, 0, 0⟩ 0 1 ∧
      smart_delay_total ⟨0, 0, 0⟩ 0 1 ≤ 9/2 :=
  (C7_pacing ⟨0, 0, 0⟩ 0 1 (by norm_num) (by norm_num)).2.2.2.2.1 rfl

/-- C9: the query builder requests `min(count + 5, 50)` results, appends
` site:<domain>` and ` filetype:<ext>` to the term exactly when those
filters are present (and non-empty), maps day/week/month/year to the
`qdr` recency token, and silently omits the token for an absent or
unrecognised date range. -/
theorem C9_query_builder (query : String) (num_results : Nat) (language : String)
    (safe_search : Bool) (site filetype date_range : Option String) :
    (build_params query num_results language safe_search site filetype date_range).num =
      min (num_results + 5) 50 ∧
    (site = none → filetype = none →
      (build_params query num_results language safe_search site filetype date_range).q = query) ∧
    (∀ s, s ≠ "" → site = some s → filetype = none →
      (build_params query num_results language safe_search site filetype date_range).q =
        query ++ " site:" ++ s) ∧
    (∀ f, f ≠ "" → filetype = some f → site = none →
      (build_params query num_results language safe_search site filetype date_range).q =
        query ++ " filetype:" ++ f) ∧
    (∀ s f, s ≠ "" → f ≠ "" → site = some s → filetype = some f →
      (build_params query num_results language safe_search site filetype date_range).q =
        query ++ " site:" ++ s ++ " filetype:" ++ f) ∧
    (date_range = some "day" →
      (build_params query num_results language safe_search site filetype date_range).tbs =
        some "qdr:d") ∧
    (date_range = some "week" →
      (build_params query num_results language safe_search site filetype date_range).tbs =
        some "qdr:w") ∧
    (date_range = some "month" →
      (build_params query num_results language safe_search site filetype date_range).tbs =
        some "qdr:m") ∧
    (date_range = some "year" →
      (build_params query num_results language safe_search site filetype date_range).tbs =
        some "qdr:y") ∧
    (date_range = none →
      (build_params query num_results language safe_search site filetype date_range).tbs =
        none) ∧
    (∀ v, date_range = some v → v ≠ "day" → v ≠ "week" → v ≠ "month" → v ≠ "year" →
      (build_params query num_results language safe_search site filetype date_range).tbs =
        none) := by
  refine ⟨rfl, ?_, ?_, ?_, ?_, ?_, ?_, ?_, ?_, ?_, ?_⟩
  · rintro rfl rfl; rfl
  · rintro s hs rfl rfl; simp [build_params, hs]
  · rintro f hf rfl rfl; simp [build_params, hf]
  · rintro s f hs hf rfl rfl; simp [build_params, hs, hf]
  · rintro rfl; simp [build_params, date_params]
  · rintro rfl; simp [build_params, date_params]
  · rintro rfl; simp [build_params, date_params]
  · rintro rfl; simp [build_params, date_params]
  · rintro rfl; rfl
  · rintro v rfl h1 h2 h3 h4
    by_cases hv : v = ""
    · subst hv; simp [build_params]
    · simp [build_params, date_params, hv, h1, h2, h3, h4]

/-- Witness for C9: a concrete advanced search with a site filter and a
week date range. -/
theorem C9_witness :
    (build_params "q" 10 "es" false (some "reddit.com") none (some "week")).q =
      "q" ++ " site:" ++ "reddit.com" ∧
    (build_params "q" 10 "es" false (some "reddit.com") none (some "week")).tbs =
      some "qdr:w" :=
  ⟨(C9_query_builder "q" 10 "es" false (some "reddit.com") none (some "week")).2.2.1
      "reddit.com" (by decide) rfl rfl,
   (C9_query_builder "q" 10 "es" false (some "reddit.com") none (some "week")).2.2.2.2.2.2.1
      rfl⟩

theorem searchLoop_blocked_none (query : String) (num_results : Nat)
    (oracle : Nat → FetchOutcome) (domains : Nat → String) (times : Nat → ℚ)
    (hb : ∀ j, ∃ body cands, oracle j = .resp 200 body cands ∧ isBlocked body = true) :
    ∀ fuel i st, searchLoop query num_results oracle domains times fuel i st = none := by
  intro fuel
  induction fuel with
  | zero => intro i st; rfl
  | succ fuel ih =>
    intro i st
    obtain ⟨body, cands, ho, hbl⟩ := hb i
    simp only [searchLoop, searchStep, ho, hbl, if_pos rfl, if_true]
    exact ih (i + 1) _

theorem searchLoop_blockedThenClean (query : String) (num_results : Nat)
    (domains : Nat → String) (times : Nat → ℚ)
    (blockedBody cleanBody : String) (cleanCands : List Candidate)
    (hb : isBlocked blockedBody = true) (hc : isBlocked cleanBody = false) :
    ∀ k i st, ∃ st',
      searchLoop query num_results
          (blockedThenClean blockedBody cleanBody cleanCands (i + k)) domains times
          (k + 1) i st =
        some (successResponse query num_results (domains (i + k))
          (parse_search_results cleanCands), i + k + 1, st') := by
  intro k
  induction k with
  | zero =>
    intro i st
    refine ⟨recordRequest st (times i), ?_⟩
    simp [searchLoop, searchStep, blockedThenClean, hc]
  | succ k ih =>
    intro i st
    have hlt : i < i + (k + 1) := by omega
    have harith : i + (k + 1) = (i + 1) + k := by omega
    rw [harith]
    obtain ⟨st', hst'⟩ := ih (i + 1) (recordRequest st (times i))
    refine ⟨st', ?_⟩
    simp only [searchLoop, searchStep, blockedThenClean, harith ▸ hlt, if_pos rfl, if_true,
      hb]
    exact hst'

theorem searchLoop_count (query : String) (num_results : Nat)
    (oracle : Nat → FetchOutcome) (domains : Nat → String) (times : Nat → ℚ) :
    ∀ fuel i st r n st',
      (∀ j : Nat, times j - st.rate_limit_reset ≤ 3600) →
      searchLoop query num_results oracle domains times fuel i st = some (r, n, st') →
      i < n ∧ st'.request_count = st.request_count + (n - i) ∧
        st'.rate_limit_reset = st.rate_limit_reset := by
  intro fuel
  induction fuel with
  | zero => intro i st r n st' _ h; exact absurd h (by simp [searchLoop])
  | succ fuel ih =>
    intro i st r n st' hwin h
    have hrec : recordRequest st (times i) =
        { st with request_count := st.request_count + 1,
                  last_request_time := times i } := by
      simp [recordRequest, resetIfStale, not_lt.mpr (hwin i)]
    simp only [searchLoop] at h
    cases hstep : searchStep query num_results (domains i) (oracle i) with
    | done r' =>
      rw [hstep] at h
      simp only [Option.some.injEq, Prod.mk.injEq] at h
      obtain ⟨hr, hn, hst⟩ := h
      subst hn
      subst hst
      rw [hrec]
      refine ⟨by omega, by simp, rfl⟩
    | retryBlocked =>
      rw [hstep] at h
      have hwin' : ∀ j : Nat,
          times j - (recordRequest st (times i)).rate_limit_reset ≤ 3600 := by
        intro j; rw [hrec]; exact hwin j
      obtain ⟨h1, h2, h3⟩ := ih (i + 1) (recordRequest st (times i)) r n st' hwin' h
      rw [hrec] at h2 h3
      simp at h2 h3
      exact ⟨by omega, by omega, h3⟩

theorem recordRequest_no_reset (st : PacingState) (now : ℚ)
    (h : ¬ now - st.rate_limit_reset > 3600) :
    recordRequest st now = ⟨now, st.request_count + 1, st.rate_limit_reset⟩ := by
  simp only [recordRequest, resetIfStale, if_neg h]

/-- C1 (code bug): the retry path of the orchestrator is not bounded by
any attempt count.  When every fetched body carries a block signal the
recursion never produces a response at any observation depth (in
particular it never returns the failure response the claim requires),
and for every `k` an oracle that is blocked on the first `k` attempts
drives the orchestrator to `k + 1` attempts, exceeding any fixed
maximum. -/
theorem C1_retry_unbounded (query : String) (num_results : Nat)
    (domains : Nat → String) (times : Nat → ℚ)
    (blockedBody cleanBody : String) (cleanCands : List Candidate)
    (hb : isBlocked blockedBody = true) (hc : isBlocked cleanBody = false) :
    (∀ fuel i st,
      searchLoop query num_results (fun _ => .resp 200 blockedBody []) domains times
        fuel i st = none) ∧
    (∀ k st, ∃ st',
      searchLoop query num_results (blockedThenClean blockedBody cleanBody cleanCands k)
          domains times (k + 1) 0 st =
        some (successResponse query num_results (domains k)
          (parse_search_results cleanCands), k + 1, st')) := by
  constructor
  · exact searchLoop_blocked_none query num_results _ domains times
      (fun j => ⟨blockedBody, [], rfl, hb⟩)
  · intro k st
    have h := searchLoop_blockedThenClean query num_results domains times
      blockedBody cleanBody cleanCands hb hc k 0 st
    simpa using h

/-- Witness for C1: with every body reading `a CAPTCHA page` the
orchestrator never returns, and a run blocked on the first `k` attempts
takes `k + 1` attempts. -/
theorem C1_witness :
    (∀ fuel i st,
      searchLoop "q" 10 (fun _ => FetchOutcome.resp 200 "a CAPTCHA page" [])
        (fun _ => "www.google.com") (fun _ => 0) fuel i st = none) ∧
    (∀ k st, ∃ st',
      searchLoop "q" 10 (blockedThenClean "a CAPTCHA page" "clean results" [] k)
          (fun _ => "www.google.com") (fun _ => 0) (k + 1) 0 st =
        some (successResponse "q" 10 "www.google.com" (parse_search_results []),
          k + 1, st')) :=
  C1_retry_unbounded "q" 10 (fun _ => "www.google.com") (fun _ => 0)
    "a CAPTCHA page" "clean results" [] (by decide) (by decide)

/-- C2: every response the orchestrator returns satisfies the
`SearchResponse` invariant — a failure response carries an empty result
sequence, and a success response carries at most `num_results` results
whose positions are exactly `1, 2, ..., len(results)` in order. -/
theorem C2_response_invariant (query : String) (num_results : Nat)
    (oracle : Nat → FetchOutcome) (domains : Nat → String) (times : Nat → ℚ) :
    ∀ (fuel i : Nat) (st : PacingState) (r : SearchResponse) (n : Nat) (st' : PacingState),
      searchLoop query num_results oracle domains times fuel i st = some (r, n, st') →
      (r.success = false → r.results = []) ∧
      (r.success = true → r.results.length ≤ num_results ∧
        ∀ j (hj : j < r.results.length), (r.results.get ⟨j, hj⟩).position = j + 1) := by
  intro fuel
  induction fuel with
  | zero => intro i st r n st' h; exact absurd h (by simp [searchLoop])
  | succ fuel ih =>
    intro i st r n st' h
    simp only [searchLoop] at h
    cases ho : oracle i with
    | exn msg =>
      rw [ho] at h
      simp only [searchStep, Option.some.injEq, Prod.mk.injEq] at h
      obtain ⟨hr, -, -⟩ := h
      subst hr
      exact ⟨fun _ => rfl, fun hs => by simp [failureResponse] at hs⟩
    | resp status body cands =>
      rw [ho] at h
      simp only [searchStep] at h
      by_cases hst : status = 200
      · subst hst
        rw [if_pos rfl] at h
        by_cases hbl : isBlocked body = true
        · rw [if_pos hbl] at h
          exact ih (i + 1) _ r n st' h
        · rw [if_neg hbl] at h
          simp only [Option.some.injEq, Prod.mk.injEq] at h
          obtain ⟨hr, -, -⟩ := h
          subst hr
          refine ⟨fun hs => by simp [successResponse] at hs, fun _ => ⟨?_, ?_⟩⟩
          · simp only [successResponse, List.length_take]
            exact Nat.min_le_left _ _
          · intro j hj
            show (((parse_search_results cands).take num_results).get ⟨j, hj⟩).position
              = j + 1
            have hp := positionsFrom_take (parse_search_results cands) 1 num_results
              (parse_search_results_positions cands)
            have h2 := (positionsFrom_iff_get
              ((parse_search_results cands).take num_results) 1).mp hp j hj
            omega
      · rw [if_neg hst] at h
        simp only [Option.some.injEq, Prod.mk.injEq] at h
        obtain ⟨hr, -, -⟩ := h
        subst hr
        exact ⟨fun _ => rfl, fun hs => by simp [failureResponse] at hs⟩

/-- Witness for C2: a clean single-result run satisfies the invariant. -/
theorem C2_witness :
    ((⟨true, "q", 1, [⟨"T", "https://x.example", "", "", 1⟩], "dom", none⟩ :
        SearchResponse).success = false →
      (⟨true, "q", 1, [⟨"T", "https://x.example", "", "", 1⟩], "dom", none⟩ :
        SearchResponse).results = []) ∧
    ((⟨true, "q", 1, [⟨"T", "https://x.example", "", "", 1⟩], "dom", none⟩ :
        SearchResponse).success = true →
      (⟨true, "q", 1, [⟨"T", "https://x.example", "", "", 1⟩], "dom", none⟩ :
          SearchResponse).results.length ≤ 10 ∧
      ∀ j (hj : j < (⟨true, "q", 1, [⟨"T", "https://x.example", "", "", 1⟩], "dom", none⟩ :
          SearchResponse).results.length),
        ((⟨true, "q", 1, [⟨"T", "https://x.example", "", "", 1⟩], "dom", none⟩ :
          SearchResponse).results.get ⟨j, hj⟩).position = j + 1) := by
  have hrun : searchLoop "q" 10
      (fun _ => FetchOutcome.resp 200 "ok" [.good "T" (some "https://x.example") none ""])
      (fun _ => "dom") (fun _ => 0) 1 0 ⟨0, 0, 0⟩ =
      some (⟨true, "q", 1, [⟨"T", "https://x.example", "", "", 1⟩], "dom", none⟩,
        1, ⟨0, 1, 0⟩) := by
    have e1 : recordRequest ⟨0, 0, 0⟩ 0 = ⟨0, 1, 0⟩ := by
      rw [recordRequest_no_reset _ _ (by norm_num)]
    simp only [searchLoop, e1]
    rfl
  exact C2_response_invariant "q" 10 _ _ _ 1 0 ⟨0, 0, 0⟩ _ 1 ⟨0, 1, 0⟩ hrun

/-- C8: the orchestrator converts a transport exception into a failure
response carrying the exception text, and a non-2xx status into a
failure response recording `HTTP <status>`; both return after exactly
one attempt (no retry), for every fuel, so the caller always receives a
response value. -/
theorem C8_error_conversion (query : String) (num_results : Nat)
    (oracle : Nat → FetchOutcome) (domains : Nat → String) (times : Nat → ℚ)
    (fuel i : Nat) (st : PacingState) :
    (∀ msg, oracle i = .exn msg →
      searchLoop query num_results oracle domains times (fuel + 1) i st =
        some (failureResponse query msg, i + 1, recordRequest st (times i)) ∧
      (failureResponse query msg).success = false ∧
      (failureResponse query msg).error = some msg) ∧
    (∀ status body cands, status ≠ 200 → oracle i = .resp status body cands →
      searchLoop query num_results oracle domains times (fuel + 1) i st =
        some (failureResponse query ("HTTP " ++ toString status), i + 1,
          recordRequest st (times i)) ∧
      (failureResponse query ("HTTP " ++ toString status)).success = false ∧
      (failureResponse query ("HTTP " ++ toString status)).error =
        some ("HTTP " ++ toString status)) := by
  constructor
  · intro msg ho
    refine ⟨?_, rfl, rfl⟩
    simp only [searchLoop, searchStep, ho]
  · intro status body cands hst ho
    refine ⟨?_, rfl, rfl⟩
    simp only [searchLoop, searchStep, ho, if_neg hst]

/-- Witness for C8: a timed-out fetch yields a failure response after one
attempt. -/
theorem C8_witness :
    searchLoop "q" 10 (fun _ => FetchOutcome.exn "timeout") (fun _ => "dom")
        (fun _ => 0) 1 0 ⟨0, 0, 0⟩ =
      some (failureResponse "q" "timeout", 1, recordRequest ⟨0, 0, 0⟩ 0) ∧
    (failureResponse "q" "timeout").success = false ∧
    (failureResponse "q" "timeout").error = some "timeout" :=
  (C8_error_conversion "q" 10 (fun _ => FetchOutcome.exn "timeout") (fun _ => "dom")
    (fun _ => 0) 0 0 ⟨0, 0, 0⟩).1 "timeout" rfl

/-- C10: every attempt of the orchestrator — block-triggered retries
included — runs the pacing step before fetching: inside the reset
window one pacing step increments the request counter by exactly one and
stamps the last-request time, and a completed run of `n - i` attempts
increases the counter by exactly `n - i`. -/
theorem C10_pacing_attempts :
    (∀ (st : PacingState) (now : ℚ), now - st.rate_limit_reset ≤ 3600 →
      (recordRequest st now).request_count = st.request_count + 1 ∧
      (recordRequest st now).last_request_time = now) ∧
    (∀ (query : String) (num_results : Nat) (oracle : Nat → FetchOutcome)
        (domains : Nat → String) (times : Nat → ℚ) (fuel i : Nat) (st : PacingState)
        (r : SearchResponse) (n : Nat) (st' : PacingState),
      (∀ j : Nat, times j - st.rate_limit_reset ≤ 3600) →
      searchLoop query num_results oracle domains times fuel i st = some (r, n, st') →
      i < n ∧ st'.request_count = st.request_count + (n - i)) := by
  constructor
  · intro st now h
    rw [recordRequest_no_reset st now (not_lt.mpr h)]
    exact ⟨rfl, rfl⟩
  · intro query num oracle domains times fuel i st r n st' hwin h
    have hcount := searchLoop_count query num oracle domains times fuel i st r n st' hwin h
    exact ⟨hcount.1, hcount.2.1⟩

/-- Witness for C10: a run with one blocked attempt and one clean attempt
performs two pacing steps, ending with counter 2. -/
theorem C10_witness :
    0 < 2 ∧ (⟨0, 2, 0⟩ : PacingState).request_count =
      (⟨0, 0, 0⟩ : PacingState).request_count + (2 - 0) := by
  have hrun : searchLoop "q" 10
      (fun i => if i = 0 then FetchOutcome.resp 200 "a CAPTCHA page" []
                else FetchOutcome.resp 200 "ok" [])
      (fun _ => "dom") (fun _ => 0) 3 0 ⟨0, 0, 0⟩ =
      some (⟨true, "q", 0, [], "dom", none⟩, 2, ⟨0, 2, 0⟩) := by
    have e1 : recordRequest ⟨0, 0, 0⟩ 0 = ⟨0, 1, 0⟩ := by
      rw [recordRequest_no_reset _ _ (by norm_num)]
    have e2 : recordRequest ⟨0, 1, 0⟩ 0 = ⟨0, 2, 0⟩ := by
      rw [recordRequest_no_reset _ _ (by norm_num)]
    simp only [searchLoop, e1, e2]
    rfl
  exact C10_pacing_attempts.2 "q" 10 _ _ _ 3 0 ⟨0, 0, 0⟩ _ 2 ⟨0, 2, 0⟩
    (fun j => by norm_num) hrun

end Scraper
